import Mathlib

/-!
Verification of the order-payment-provisioning core of an eSIM selling
platform (Go, GORM/Postgres).  The Go services are shallowly embedded as
pure Lean functions over explicit record states:

* Go `float64` money/rate values are modelled as `Rat`; every quantity of
  interest in the claims is exactly representable.
* Go `time.Time` values are modelled as integer timestamps (seconds).
* The database session is modelled as a record of tables (lists of rows);
  GORM's `First` is `List.find?`, updates map over the table.
* Outbound HTTP calls (rate fetch, QPay invoice, RoamWiFi order) are
  modelled by threading their outcome in as an explicit parameter
  (`Option result`, `none` = transport or provider error).
* Byte strings are ASCII: a `Char` is identified with its byte.
-/

set_option maxRecDepth 100000

namespace ESim

/-! ## 32-bit arithmetic on Nat (for MD5) -/

def m32 : Nat := 4294967296

def mask32 : Nat := 4294967295

def add32 (a b : Nat) : Nat := (a + b) % m32

def rotl32 (x n : Nat) : Nat := ((x <<< n) ||| (x >>> (32 - n))) &&& mask32

def not32 (x : Nat) : Nat := x ^^^ mask32

/-! ## MD5 (RFC 1321), executable over lists of byte values -/

def md5K : List Nat :=
  [0xd76aa478, 0xe8c7b756, 0x242070db, 0xc1bdceee,
   0xf57c0faf, 0x4787c62a, 0xa8304613, 0xfd469501,
   0x698098d8, 0x8b44f7af, 0xffff5bb1, 0x895cd7be,
   0x6b901122, 0xfd987193, 0xa679438e, 0x49b40821,
   0xf61e2562, 0xc040b340, 0x265e5a51, 0xe9b6c7aa,
   0xd62f105d, 0x02441453, 0xd8a1e681, 0xe7d3fbc8,
   0x21e1cde6, 0xc33707d6, 0xf4d50d87, 0x455a14ed,
   0xa9e3e905, 0xfcefa3f8, 0x676f02d9, 0x8d2a4c8a,
   0xfffa3942, 0x8771f681, 0x6d9d6122, 0xfde5380c,
   0xa4beea44, 0x4bdecfa9, 0xf6bb4b60, 0xbebfbc70,
   0x289b7ec6, 0xeaa127fa, 0xd4ef3085, 0x04881d05,
   0xd9d4d039, 0xe6db99e5, 0x1fa27cf8, 0xc4ac5665,
   0xf4292244, 0x432aff97, 0xab9423a7, 0xfc93a039,
   0x655b59c3, 0x8f0ccc92, 0xffeff47d, 0x85845dd1,
   0x6fa87e4f, 0xfe2ce6e0, 0xa3014314, 0x4e0811a1,
   0xf7537e82, 0xbd3af235, 0x2ad7d2bb, 0xeb86d391]

def md5S : List Nat :=
  [7, 12, 17, 22, 7, 12, 17, 22, 7, 12, 17, 22, 7, 12, 17, 22,
   5, 9, 14, 20, 5, 9, 14, 20, 5, 9, 14, 20, 5, 9, 14, 20,
   4, 11, 16, 23, 4, 11, 16, 23, 4, 11, 16, 23, 4, 11, 16, 23,
   6, 10, 15, 21, 6, 10, 15, 21, 6, 10, 15, 21, 6, 10, 15, 21]

/-- Round function and message index for step i of an MD5 block. -/
def md5FG (b c d i : Nat) : Nat × Nat :=
  if i < 16 then ((b &&& c) ||| (not32 b &&& d), i)
  else if i < 32 then ((d &&& b) ||| (not32 d &&& c), (5 * i + 1) % 16)
  else if i < 48 then (b ^^^ c ^^^ d, (3 * i + 5) % 16)
  else (c ^^^ (b ||| not32 d), (7 * i) % 16)

/-- One MD5 step: state is (a, b, c, d). -/
def md5Step (M : List Nat) (st : Nat × Nat × Nat × Nat) (i : Nat) :
    Nat × Nat × Nat × Nat :=
  let (a, b, c, d) := st
  let (f, g) := md5FG b c d i
  let fv := add32 (add32 (add32 f a) (md5K.getD i 0)) (M.getD g 0)
  (d, add32 b (rotl32 fv (md5S.getD i 0)), b, c)

/-- Little-endian 32-bit words from a byte list (groups of four). -/
def leWords : List Nat → List Nat
  | b0 :: b1 :: b2 :: b3 :: rest =>
      (b0 + 256 * b1 + 65536 * b2 + 16777216 * b3) :: leWords rest
  | _ => []

/-- Process one 64-byte block, updating the running digest. -/
def md5Block (digest : Nat × Nat × Nat × Nat) (block : List Nat) :
    Nat × Nat × Nat × Nat :=
  let (a0, b0, c0, d0) := digest
  let M := leWords block
  let (a, b, c, d) := (List.range 64).foldl (md5Step M) (a0, b0, c0, d0)
  (add32 a0 a, add32 b0 b, add32 c0 c, add32 d0 d)

/-- Process the padded message 64 bytes at a time; fuel counts blocks. -/
def md5Blocks : Nat → List Nat → (Nat × Nat × Nat × Nat) → Nat × Nat × Nat × Nat
  | 0, _, digest => digest
  | fuel + 1, bytes, digest => md5Blocks fuel (bytes.drop 64) (md5Block digest (bytes.take 64))

/-- MD5 padding: a 0x80 byte, zeros to 56 mod 64, then the bit length
as a 64-bit little-endian integer. -/
def md5Pad (msg : List Nat) : List Nat :=
  let len := msg.length
  let zeros := (120 - (len + 1) % 64) % 64
  let bitLen := (len * 8) % (2 ^ 64)
  msg ++ [0x80] ++ List.replicate zeros 0 ++
    (List.range 8).map (fun i => bitLen / (256 ^ i) % 256)

/-- Four little-endian bytes of a 32-bit word. -/
def word32Bytes (x : Nat) : List Nat :=
  [x % 256, x / 256 % 256, x / 65536 % 256, x / 16777216 % 256]

/-- MD5 digest of a byte list, as 16 bytes. -/
def md5Bytes (msg : List Nat) : List Nat :=
  let padded := md5Pad msg
  let (a, b, c, d) :=
    md5Blocks (padded.length / 64) padded (0x67452301, 0xefcdab89, 0x98badcfe, 0x10325476)
  word32Bytes a ++ word32Bytes b ++ word32Bytes c ++ word32Bytes d

/-- Lowercase hex digit for a value below 16 (0x30 is '0', 0x61 is 'a'). -/
def hexDigit (n : Nat) : Char :=
  if n < 10 then Char.ofNat (0x30 + n) else Char.ofNat (0x61 + (n - 10))

/-- Lowercase hex encoding of a byte list. -/
def hexEncode (bytes : List Nat) : String :=
  String.mk ((bytes.map (fun b => [hexDigit (b / 16 % 16), hexDigit (b % 16)])).flatten)

/-- Bytes of an ASCII string (Go `[]byte(s)` for the ASCII strings used here). -/
def strBytes (s : String) : List Nat := s.data.map Char.toNat

/-- Hex MD5 of an ASCII string, as produced by Go's
`hex.EncodeToString(md5.Sum([]byte(s)))`. -/
def md5Hex (s : String) : String := hexEncode (md5Bytes (strBytes s))

/-! ## RoamWiFi request signing (roamwifi.go, generateSignature) -/

/-- Bytewise lexicographic order on byte lists (Go string comparison). -/
def bytesLe (xs ys : List Nat) : Bool :=
  match xs, ys with
  | [], _ => true
  | _, [] => false
  | x :: xr, y :: yr => if x < y then true else if y < x then false else bytesLe xr yr

/-- Bytewise lexicographic order on (ASCII) strings, as Go compares strings. -/
def strLe (x y : String) : Bool := bytesLe (strBytes x) (strBytes y)

/-- Insertion of a string into a sorted list, lexicographic (Go sort.Strings). -/
def insertStr (x : String) : List String → List String
  | [] => [x]
  | y :: ys => if strLe x y then x :: y :: ys else y :: insertStr x ys

/-- Lexicographic insertion sort on strings (Go sort.Strings on collected keys). -/
def sortStrs : List String → List String
  | [] => []
  | x :: xs => insertStr x (sortStrs xs)

/-- Insertion of a key/value pair into a list sorted by key. -/
def insertPair (p : String × String) : List (String × String) → List (String × String)
  | [] => [p]
  | q :: qs => if strLe p.1 q.1 then p :: q :: qs else q :: insertPair p qs

/-- Insertion sort of key/value pairs by key. -/
def sortPairs : List (String × String) → List (String × String)
  | [] => []
  | p :: ps => insertPair p (sortPairs ps)

/-- Association-list lookup defaulting to the empty string (Go `data[key]`
on a map that contains `key`; the default is never hit for present keys). -/
def lookupStr : List (String × String) → String → String
  | [], _ => ""
  | p :: ps, k => if p.1 = k then p.2 else lookupStr ps k

/-- Shared RoamWiFi signing key (roamwifi.go line 108). -/
def signKey : String := "ro@mw1f1-bpm-ap1"

/-- Embedding of RoamWiFiService.generateSignature (roamwifi.go 106-139):
drop any existing "sign" entry, sort the remaining keys, concatenate
"key=value" pairs with no separator, append the sign key, MD5, hex.
The Go map is modelled as an association list with distinct keys. -/
def generateSignature (params : List (String × String)) : String :=
  let data := params.filter (fun p => p.1 ≠ "sign")
  let keys := sortStrs (data.map Prod.fst)
  let arrayList := keys.map (fun k => k ++ "=" ++ lookupStr data k)
  let content := String.join arrayList ++ signKey
  md5Hex content

/-- Modelled from the spec (section 4.4 wording, for refinement comparison
only): sort the parameter pairs (minus "sign") by key, concatenate
"key=value" with no separators, append the shared secret, MD5, hex-encode. -/
def specSignature (params : List (String × String)) : String :=
  let data := params.filter (fun p => p.1 ≠ "sign")
  let content := String.join ((sortPairs data).map (fun p => p.1 ++ "=" ++ p.2)) ++ signKey
  md5Hex content

/-! ## Data model (models.go), Go float64 money as Rat, timestamps as Int -/

structure Product where
  id : Nat
  skuID : String
  name : String
  dataLimit : String
deriving DecidableEq, Repr

structure PackagePrice where
  id : Nat
  skuID : String
  providerPriceID : Int
  apiCode : String
  showName : String
  flows : Rat
  unit : String
  days : Int
  rawProviderPrice : Rat
  markupPercent : Option Rat
  overridePriceUSD : Option Rat
  effectivePriceUSD : Rat
  effectivePriceMNT : Option Rat
  exchangeRate : Option Rat
  priceSource : String
  active : Bool
  lastSyncedAt : Option Int
deriving DecidableEq, Repr

/-- Opaque model of the esim_data JSONB blob marshalled in createESIMOrder. -/
structure ESIMBlob where
  roamwifiOrderID : String
  qrCode : String
  activationCode : String
  esimRaw : List (String × String)
deriving DecidableEq, Repr

structure Order where
  id : Nat
  userID : Option Nat
  productID : Nat
  packagePriceID : Option Nat
  providerPriceID : Option Int
  orderNumber : String
  qpayInvoiceID : String
  status : String
  amount : Rat
  currency : String
  customerEmail : String
  customerPhone : String
  roamwifiOrderID : String
  esimData : Option ESIMBlob
deriving DecidableEq, Repr

/-- Opaque model of the transaction_data JSONB blob: the two maps the
order service marshals into it. -/
inductive TxData where
  | invoiceArtifacts (qrCode webURL appURL : String)
  | webhookRecord (invoiceID paymentDate : String) (paidAmount : Rat) (paymentStatus : String)
deriving DecidableEq, Repr

structure PaymentTransaction where
  id : Nat
  orderID : Nat
  qpayTransactionID : String
  amount : Rat
  status : String
  paymentMethod : String
  transactionData : TxData
deriving DecidableEq, Repr

structure CurrencyRate where
  fromCurrency : String
  toCurrency : String
  rate : Rat
  source : String
  lastUpdated : Int
deriving DecidableEq, Repr

/-- The database session: one list of rows per table. GORM First is
List.find?; updates map over the table by primary key. -/
structure DB where
  products : List Product
  packagePrices : List PackagePrice
  orders : List Order
  paymentTransactions : List PaymentTransaction
  currencyRates : List CurrencyRate
deriving DecidableEq, Repr

/-- Fresh primary key for an appended row: one more than the current maximum. -/
def freshID (ids : List Nat) : Nat := ids.foldl max 0 + 1

/-! ## QPay service (qpay.go) -/

structure QPayWebhookData where
  invoiceID : String
  senderInvoiceNo : String
  transactionID : String
  paymentStatus : String
  amount : Rat
  paidAmount : Rat
  paymentDate : String
deriving DecidableEq, Repr

/-- Payload of a successful QPay CreateInvoice response (Data field). -/
structure QPayInvoiceData where
  invoiceID : String
  qrCode : String
  webURL : String
  appURL : String
deriving DecidableEq, Repr

/-- The arguments the order service passes to QPayService.CreateInvoice. -/
structure SentInvoice where
  senderInvoiceNo : String
  description : String
  invoiceReceiver : String
  amount : Rat
deriving DecidableEq, Repr

/-- Embedding of QPayService.GetPaymentStatus (qpay.go 254-268). -/
def getPaymentStatus (qpayStatus : String) : String :=
  if qpayStatus = "PAID" then "paid"
  else if qpayStatus = "PENDING" then "pending"
  else if qpayStatus = "FAILED" then "failed"
  else if qpayStatus = "CANCELLED" then "cancelled"
  else "unknown"

/-- Go float64-to-int conversion: truncation toward zero, on Rat. -/
def ratTrunc (q : Rat) : Int := if 0 ≤ q then ⌊q⌋ else -⌊-q⌋

/-- Embedding of QPayService.FormatAmount (qpay.go 270-274):
float64(int(amount)), i.e. drop the fractional part toward zero. -/
def formatAmount (amount : Rat) : Rat := (ratTrunc amount : Rat)

/-! ## Pricing service (GetUSDToMNTRate) -/

/-- GORM query Order("last_updated DESC").First for the USD/MNT pair:
the stored row with the greatest last_updated (first row wins ties). -/
def mostRecentRate (rates : List CurrencyRate) : Option CurrencyRate :=
  (rates.filter (fun r => r.fromCurrency == "USD" && r.toCurrency == "MNT")).foldl
    (fun acc r => match acc with
      | none => some r
      | some m => if m.lastUpdated < r.lastUpdated then some r else some m)
    none

/-- Embedding of PricingService.GetUSDToMNTRate. `fetchResult` is the
outcome of fetchExchangeRateFromAPI (none = error), `now` the clock.
Result: ((rate, error), updated rate table); the Go function returns a
nil error on every path. -/
def mkRateRow (rate : Rat) (source : String) (now : Int) : CurrencyRate :=
  { fromCurrency := "USD", toCurrency := "MNT", rate := rate, source := source, lastUpdated := now }

def getUSDToMNTRate (fetchResult : Option Rat) (now : Int)
    (rates : List CurrencyRate) : (Rat × Option String) × List CurrencyRate :=
  match mostRecentRate rates with
  | some r =>
      if now - r.lastUpdated < 86400 then ((r.rate, none), rates)
      else
        match fetchResult with
        | some newRate => ((newRate, none), rates ++ [mkRateRow newRate "api" now])
        | none => if r.rate > 0 then ((r.rate, none), rates) else ((2850, none), rates)
  | none =>
      match fetchResult with
      | some newRate => ((newRate, none), rates ++ [mkRateRow newRate "api" now])
      | none => ((2850, none), rates)

/-- Embedding of PricingService.SetManualExchangeRate: append a manual row. -/
def setManualExchangeRate (rate : Rat) (now : Int) (rates : List CurrencyRate) :
    List CurrencyRate :=
  rates ++ [mkRateRow rate "manual" now]

/-! ## Product service pricing overlay (product.go) -/

/-- Record part of ProductService.SetPackageMarkup (product.go 153-166):
set the markup, clear the override, recompute the effective USD price,
then stamp the exchange rate and effective MNT price. The rate branch
mirrors the source: GetUSDToMNTRate never returns an error, so the
err-nil branch always runs. -/
def markupRecompute (markup : Rat) (rate : Rat) (pp : PackagePrice) : PackagePrice :=
  let pp := { pp with markupPercent := some markup, overridePriceUSD := none }
  let base := pp.rawProviderPrice
  let pp := { pp with effectivePriceUSD := base * (1 + markup / 100), priceSource := "markup" }
  { pp with exchangeRate := some rate, effectivePriceMNT := some (pp.effectivePriceUSD * rate) }

/-- Record part of ProductService.SetPackageOverride (product.go 176-201):
nil clears the override and falls back to markup/base; a non-positive
value is rejected before any mutation; a positive value becomes the
effective USD price with source "override" (stored markup untouched). -/
def overrideRecompute (override : Option Rat) (rate : Rat) (pp : PackagePrice) :
    Except String PackagePrice :=
  match override with
  | none =>
      let pp := { pp with overridePriceUSD := none }
      let pp :=
        match pp.markupPercent with
        | some m => { pp with effectivePriceUSD := pp.rawProviderPrice * (1 + m / 100), priceSource := "markup" }
        | none => { pp with effectivePriceUSD := pp.rawProviderPrice, priceSource := "base" }
      .ok { pp with exchangeRate := some rate, effectivePriceMNT := some (pp.effectivePriceUSD * rate) }
  | some v =>
      if v ≤ 0 then .error "override must be > 0"
      else
        let pp := { pp with overridePriceUSD := some v, effectivePriceUSD := v, priceSource := "override" }
        .ok { pp with exchangeRate := some rate, effectivePriceMNT := some (pp.effectivePriceUSD * rate) }

/-- Save a package-price row back by primary key (GORM db.Save). -/
def savePackagePrice (pp : PackagePrice) (table : List PackagePrice) : List PackagePrice :=
  table.map (fun q => if q.id == pp.id then pp else q)

/-- Embedding of ProductService.SetPackageMarkup (product.go 147-168). -/
def setPackageMarkup (fetchResult : Option Rat) (now : Int) (providerPriceID : Int)
    (markup : Rat) (db : DB) : Option String × DB :=
  match db.packagePrices.find? (fun pp => pp.providerPriceID == providerPriceID) with
  | none => (some "record not found", db)
  | some pp =>
      let gr := getUSDToMNTRate fetchResult now db.currencyRates
      let pp := markupRecompute markup gr.1.1 pp
      (none, { db with packagePrices := savePackagePrice pp db.packagePrices, currencyRates := gr.2 })

/-- Embedding of ProductService.SetPackageOverride (product.go 171-203). -/
def setPackageOverride (fetchResult : Option Rat) (now : Int) (providerPriceID : Int)
    (override : Option Rat) (db : DB) : Option String × DB :=
  match db.packagePrices.find? (fun pp => pp.providerPriceID == providerPriceID) with
  | none => (some "record not found", db)
  | some pp =>
      let gr := getUSDToMNTRate fetchResult now db.currencyRates
      match overrideRecompute override gr.1.1 pp with
      | .error e => (some e, db)
      | .ok pp =>
          (none, { db with packagePrices := savePackagePrice pp db.packagePrices, currencyRates := gr.2 })

/-- One provider package record as consumed by SyncPackagePrices. -/
structure SyncPkg where
  apiCode : String
  showName : String
  flows : Rat
  unit : String
  days : Int
  price : Rat
  priceID : Int
deriving DecidableEq, Repr

/-- Update branch of ProductService.SyncPackagePrices (product.go 106-135):
refresh provenance fields, recompute the effective price with precedence
override > markup > base, stamp rate/MNT (MNT only when rate > 0). -/
def syncExistingPackage (skuID : String) (pkg : SyncPkg) (rate : Rat) (now : Int)
    (existing : PackagePrice) : PackagePrice :=
  let e := { existing with
    skuID := skuID
    apiCode := pkg.apiCode
    showName := pkg.showName
    flows := pkg.flows
    unit := pkg.unit
    days := pkg.days
    rawProviderPrice := pkg.price }
  let e :=
    match e.overridePriceUSD with
    | some v => { e with effectivePriceUSD := v, priceSource := "override" }
    | none =>
        match e.markupPercent with
        | some m => { e with effectivePriceUSD := pkg.price * (1 + m / 100), priceSource := "markup" }
        | none => { e with effectivePriceUSD := pkg.price, priceSource := "base" }
  let e := { e with exchangeRate := some rate }
  let e := if rate > 0 then { e with effectivePriceMNT := some (e.effectivePriceUSD * rate) } else e
  { e with lastSyncedAt := some now, active := true }

/-- Create branch of ProductService.SyncPackagePrices (product.go 96-105). -/
def syncNewPackage (skuID : String) (pkg : SyncPkg) (rate : Rat) (now : Int)
    (id : Nat) : PackagePrice :=
  { id := id, skuID := skuID, providerPriceID := pkg.priceID, apiCode := pkg.apiCode,
    showName := pkg.showName, flows := pkg.flows, unit := pkg.unit, days := pkg.days,
    rawProviderPrice := pkg.price, markupPercent := none, overridePriceUSD := none,
    effectivePriceUSD := pkg.price,
    effectivePriceMNT := if rate > 0 then some (pkg.price * rate) else none,
    exchangeRate := some rate, priceSource := "base", active := true, lastSyncedAt := some now }

/-- One upsert step of the SyncPackagePrices loop (product.go 88-136). -/
def syncStep (skuID : String) (rate : Rat) (now : Int) (d : DB) (pkg : SyncPkg) : DB :=
  match d.packagePrices.find? (fun pp => pp.providerPriceID == pkg.priceID) with
  | some existing =>
      { d with packagePrices :=
          savePackagePrice (syncExistingPackage skuID pkg rate now existing) d.packagePrices }
  | none =>
      { d with packagePrices :=
          d.packagePrices ++
            [syncNewPackage skuID pkg rate now (freshID (d.packagePrices.map (·.id)))] }

/-- Embedding of ProductService.SyncPackagePrices (product.go 77-145),
success path: `detailed` is the fetched provider package list. Upserts
pricing rows for the SKU and deactivates rows no longer offered; the
orders table is never touched. -/
def syncPackagePrices (fetchResult : Option Rat) (now : Int) (skuID : String)
    (detailed : List SyncPkg) (db : DB) : DB :=
  let gr := getUSDToMNTRate fetchResult now db.currencyRates
  let db : DB := { db with currencyRates := gr.2 }
  let db : DB := detailed.foldl (syncStep skuID gr.1.1 now) db
  let providerIDs := detailed.map (·.priceID)
  { db with
    packagePrices := db.packagePrices.map (fun pp =>
      if pp.skuID == skuID && !(providerIDs.contains pp.providerPriceID)
      then { pp with active := false } else pp) }

/-! ## RoamWiFi provisioning adapter (roamwifi.go) -/

structure OrderRequest where
  skuID : String
  packageID : String
  customerEmail : String
  customerPhone : String
  quantity : Nat
deriving DecidableEq, Repr

structure RoamWiFiOrderResponse where
  orderID : String
  status : String
  esimData : List (String × String)
  qrCode : String
  activationCode : String
deriving DecidableEq, Repr

/-- The query parameters RoamWiFiService.CreateOrder actually sends
(roamwifi.go 449-453) before signing: token, skuid, quantity. -/
def roamWiFiCreateOrderParams (token : String) (orderReq : OrderRequest) :
    List (String × String) :=
  [("token", token), ("skuid", orderReq.skuID), ("quantity", toString orderReq.quantity)]

/-- The signed parameter set of the outbound createOrder call
(roamwifi.go 449-455). -/
def roamWiFiCreateOrderSignedParams (token : String) (orderReq : OrderRequest) :
    List (String × String) :=
  let params := roamWiFiCreateOrderParams token orderReq
  params ++ [("sign", generateSignature params)]

/-! ## Order service (order.go) -/

/-- GORM Update("status", st) on the order with the given primary key. -/
def updateOrderStatus (orderID : Nat) (st : String) (orders : List Order) : List Order :=
  orders.map (fun o => if o.id == orderID then { o with status := st } else o)

/-- Status of the order with the given order number, if present. -/
def orderStatus (db : DB) (orderNumber : String) : Option String :=
  (db.orders.find? (fun o => o.orderNumber == orderNumber)).map (·.status)

/-- The provisioning request built by createESIMOrder (order.go 362-367). -/
def buildProvisioningRequest (product : Product) (order : Order) : OrderRequest :=
  { skuID := product.skuID,
    packageID := match order.providerPriceID with
      | some p => toString p
      | none => product.skuID,
    customerEmail := order.customerEmail,
    customerPhone := order.customerPhone,
    quantity := 1 }

/-- Embedding of OrderService.createESIMOrder (order.go 347-399).
`prov` is the provisioning environment: the RoamWiFi response for a
given request, none meaning the call failed. The third component counts
provisioning calls issued. The fire-and-forget SendPDFEmail goroutine
has no effect on the state and is not modelled. -/
def createESIMOrder (prov : OrderRequest → Option RoamWiFiOrderResponse)
    (order : Order) (db : DB) : Option String × DB × Nat :=
  match db.products.find? (fun p => p.id == order.productID) with
  | none => (some "product not found", db, 0)
  | some product =>
      let ppOK : Bool :=
        match order.packagePriceID with
        | none => true
        | some pid => (db.packagePrices.find? (fun pp => pp.id == pid)).isSome
      if !ppOK then (some "package_price not found", db, 0)
      else
        let orderReq := buildProvisioningRequest product order
        match prov orderReq with
        | none =>
            (some "failed to create RoamWiFi order",
             { db with orders := updateOrderStatus order.id "failed" db.orders }, 1)
        | some resp =>
            let blob : ESIMBlob :=
              { roamwifiOrderID := resp.orderID, qrCode := resp.qrCode,
                activationCode := resp.activationCode, esimRaw := resp.esimData }
            let completedOrders := db.orders.map (fun o =>
              if o.id == order.id
              then { o with
                roamwifiOrderID := resp.orderID
                esimData := some blob
                status := "completed" }
              else o)
            (none, { db with orders := completedOrders }, 1)

/-- Embedding of OrderService.ProcessPaymentWebhook (order.go 294-344):
look up the order by sender reference, unconditionally write the mapped
payment status, upsert the payment transaction, and provision iff the
mapped status is "paid". -/
def processPaymentWebhook (prov : OrderRequest → Option RoamWiFiOrderResponse)
    (webhookData : QPayWebhookData) (db : DB) : Option String × DB × Nat :=
  match db.orders.find? (fun o => o.orderNumber == webhookData.senderInvoiceNo) with
  | none => (some "order not found", db, 0)
  | some order =>
      let paymentStatus := getPaymentStatus webhookData.paymentStatus
      let db : DB := { db with orders := updateOrderStatus order.id paymentStatus db.orders }
      let txData := TxData.webhookRecord webhookData.invoiceID webhookData.paymentDate
        webhookData.paidAmount webhookData.paymentStatus
      let db : DB :=
        match db.paymentTransactions.find? (fun t => t.orderID == order.id) with
        | none =>
            { db with paymentTransactions := db.paymentTransactions ++
                [{ id := freshID (db.paymentTransactions.map (·.id)), orderID := order.id,
                   qpayTransactionID := webhookData.transactionID, amount := webhookData.amount,
                   status := paymentStatus, paymentMethod := "qpay", transactionData := txData }] }
        | some t =>
            { db with
              paymentTransactions := db.paymentTransactions.map (fun u =>
                if u.id == t.id
                then { u with
                  qpayTransactionID := webhookData.transactionID
                  status := paymentStatus
                  transactionData := txData }
                else u) }
      if paymentStatus = "paid" then createESIMOrder prov order db
      else (none, db, 0)

structure CreateOrderRequest where
  productID : Nat
  packagePriceID : Option Nat
  providerPriceID : Option Int
  customerEmail : String
  customerPhone : String
  userID : Option Nat
  customPriceUSD : Option Rat
deriving DecidableEq, Repr

/-- Package selection of OrderService.CreateOrder (order.go 73-89). -/
def selectPackage (req : CreateOrderRequest) (db : DB) : Except String PackagePrice :=
  match req.packagePriceID with
  | some ppid =>
      match db.packagePrices.find? (fun pp => pp.id == ppid) with
      | some pp => .ok pp
      | none => .error "package_price not found"
  | none =>
      match req.providerPriceID with
      | some prid =>
          match db.packagePrices.find? (fun pp => pp.providerPriceID == prid) with
          | some pp => .ok pp
          | none => .error "package_price not found for provider_price_id"
      | none => .error "package selection required"

/-- Embedding of OrderService.CreateOrder (order.go 66-177).
`orderNumber` stands for the time-derived GenerateOrderNumber value;
`invoice` is the QPay environment: the response to a CreateInvoice call
(none = error). The third component records the invoice request actually
submitted to QPay, if the flow reached that call. -/
def createOrder (fetchResult : Option Rat) (now : Int) (orderNumber : String)
    (invoice : SentInvoice → Option QPayInvoiceData) (req : CreateOrderRequest)
    (db : DB) : Except String Order × DB × Option SentInvoice :=
  match db.products.find? (fun p => p.id == req.productID) with
  | none => (.error "product not found", db, none)
  | some product =>
      match selectPackage req db with
      | .error e => (.error e, db, none)
      | .ok selectedPackage =>
          if selectedPackage.skuID ≠ product.skuID
          then (.error "selected package does not belong to product sku", db, none)
          else
            let gr := getUSDToMNTRate fetchResult now db.currencyRates
            let db : DB := { db with currencyRates := gr.2 }
            let finalPriceUSD :=
              match req.customPriceUSD with
              | some c => c
              | none => selectedPackage.effectivePriceUSD
            let finalPriceMNT := finalPriceUSD * gr.1.1
            let order : Order :=
              { id := freshID (db.orders.map (·.id)), userID := req.userID,
                productID := req.productID, packagePriceID := some selectedPackage.id,
                providerPriceID := some selectedPackage.providerPriceID,
                orderNumber := orderNumber, qpayInvoiceID := "", status := "pending",
                amount := finalPriceMNT, currency := "MNT",
                customerEmail := req.customerEmail, customerPhone := req.customerPhone,
                roamwifiOrderID := "", esimData := none }
            let db : DB := { db with orders := db.orders ++ [order] }
            let qpayAmount := formatAmount finalPriceMNT
            let sent : SentInvoice :=
              { senderInvoiceNo := orderNumber,
                description := "eSIM " ++ product.name ++ " - " ++ product.dataLimit
                  ++ " (" ++ selectedPackage.showName ++ ")",
                invoiceReceiver := req.customerEmail, amount := qpayAmount }
            match invoice sent with
            | none =>
                (.error "failed to create QPay invoice",
                 { db with orders := updateOrderStatus order.id "failed" db.orders }, some sent)
            | some resp =>
                let db : DB := { db with orders := db.orders.map (fun o =>
                    if o.id == order.id then { o with qpayInvoiceID := resp.invoiceID } else o) }
                let tx : PaymentTransaction :=
                  { id := freshID (db.paymentTransactions.map (·.id)), orderID := order.id,
                    qpayTransactionID := resp.invoiceID, amount := finalPriceMNT,
                    status := "pending", paymentMethod := "qpay",
                    transactionData := TxData.invoiceArtifacts resp.qrCode resp.webURL resp.appURL }
                (.ok order, { db with paymentTransactions := db.paymentTransactions ++ [tx] }, some sent)

/-- Embedding of OrderService.InitiatePayment (order.go 217-291).
`check` is the CheckPayment outcome for the stored invoice id (none =
error, some s = reported payment status). The third component records
the invoice request submitted to QPay, if the flow reached that call. -/
def initiatePayment (check : Option String)
    (invoice : SentInvoice → Option QPayInvoiceData) (orderNumber : String)
    (db : DB) : Except String Unit × DB × Option SentInvoice :=
  match db.orders.find? (fun o => o.orderNumber == orderNumber) with
  | none => (.error "order not found", db, none)
  | some order =>
      if order.status ≠ "pending" then (.error "order is not in pending status", db, none)
      else if order.qpayInvoiceID ≠ "" && check == some "PAID" then
        (.error "payment already completed",
         { db with orders := updateOrderStatus order.id "paid" db.orders }, none)
      else
        let product := (db.products.find? (fun p => p.id == order.productID)).getD
          { id := 0, skuID := "", name := "", dataLimit := "" }
        let qpayAmount := formatAmount order.amount
        let sent : SentInvoice :=
          { senderInvoiceNo := orderNumber,
            description := "eSIM " ++ product.name ++ " - " ++ product.dataLimit,
            invoiceReceiver := order.customerEmail, amount := qpayAmount }
        match invoice sent with
        | none => (.error "failed to create QPay invoice", db, some sent)
        | some resp =>
            let db : DB := { db with orders := db.orders.map (fun o =>
                if o.id == order.id then { o with qpayInvoiceID := resp.invoiceID } else o) }
            let db : DB :=
              match db.paymentTransactions.find? (fun t => t.orderID == order.id) with
              | none =>
                  { db with paymentTransactions := db.paymentTransactions ++
                      [{ id := freshID (db.paymentTransactions.map (·.id)), orderID := order.id,
                         qpayTransactionID := resp.invoiceID, amount := order.amount,
                         status := "pending", paymentMethod := "qpay",
                         transactionData := TxData.invoiceArtifacts resp.qrCode resp.webURL resp.appURL }] }
              | some t =>
                  { db with
                    paymentTransactions := db.paymentTransactions.map (fun u =>
                      if u.id == t.id
                      then { u with
                        qpayTransactionID := resp.invoiceID
                        transactionData := TxData.invoiceArtifacts resp.qrCode resp.webURL resp.appURL }
                      else u) }
            (.ok (), db, some sent)

/-- The money snapshot of the orders table: id, amount and currency of
every order, in table order. -/
def moneyView (orders : List Order) : List (Nat × Rat × String) :=
  orders.map (fun o => (o.id, o.amount, o.currency))

/-! ## Concrete scenario fixtures

One fixture family per claim; a fixture is only referenced by the
theorems of its own claim. -/

def c3pp : PackagePrice :=
  { id := 1, skuID := "5", providerPriceID := 77, apiCode := "A", showName := "P",
    flows := 1, unit := "GB", days := 7, rawProviderPrice := 10,
    markupPercent := some 20, overridePriceUSD := some 15, effectivePriceUSD := 15,
    effectivePriceMNT := none, exchangeRate := none, priceSource := "override",
    active := true, lastSyncedAt := none }

def c3pkg : SyncPkg :=
  { apiCode := "A", showName := "P", flows := 1, unit := "GB", days := 7,
    price := 10, priceID := 77 }

def c1product : Product := { id := 1, skuID := "5", name := "Europe", dataLimit := "10GB" }

def c1order : Order :=
  { id := 1, userID := none, productID := 1, packagePriceID := none,
    providerPriceID := some 77, orderNumber := "ESIM1C", qpayInvoiceID := "inv1",
    status := "completed", amount := 41400, currency := "MNT",
    customerEmail := "user@example.com", customerPhone := "97600000000",
    roamwifiOrderID := "RW1", esimData := none }

def c1db : DB :=
  { products := [c1product], packagePrices := [], orders := [c1order],
    paymentTransactions := [], currencyRates := [] }

def c1resp : RoamWiFiOrderResponse :=
  { orderID := "RW2", status := "0", esimData := [], qrCode := "QR2", activationCode := "AC2" }

def c1wh : QPayWebhookData :=
  { invoiceID := "inv1", senderInvoiceNo := "ESIM1C", transactionID := "tx1",
    paymentStatus := "PAID", amount := 41400, paidAmount := 41400,
    paymentDate := "2025-01-01" }

def c2order : Order :=
  { id := 1, userID := none, productID := 1, packagePriceID := none,
    providerPriceID := some 77, orderNumber := "ESIM2C", qpayInvoiceID := "inv2",
    status := "completed", amount := 100, currency := "MNT",
    customerEmail := "a@b.c", customerPhone := "", roamwifiOrderID := "RW1",
    esimData := none }

def c2db : DB :=
  { products := [], packagePrices := [], orders := [c2order],
    paymentTransactions := [], currencyRates := [] }

def c2wh : QPayWebhookData :=
  { invoiceID := "inv2", senderInvoiceNo := "ESIM2C", transactionID := "tx2",
    paymentStatus := "PENDING", amount := 100, paidAmount := 0,
    paymentDate := "2025-01-02" }

def c5order : Order :=
  { id := 1, userID := none, productID := 1, packagePriceID := none,
    providerPriceID := some 77, orderNumber := "ESIM5", qpayInvoiceID := "",
    status := "pending", amount := 100, currency := "MNT",
    customerEmail := "user@example.com", customerPhone := "", roamwifiOrderID := "",
    esimData := none }

def c5db : DB :=
  { products := [], packagePrices := [], orders := [c5order],
    paymentTransactions := [], currencyRates := [] }

def c5invoice : SentInvoice → Option QPayInvoiceData :=
  fun _ => some { invoiceID := "inv5", qrCode := "QR5", webURL := "w", appURL := "a" }

def c5sent : SentInvoice :=
  { senderInvoiceNo := "ESIM5", description := "eSIM  - ",
    invoiceReceiver := "user@example.com", amount := 100 }

def c7product : Product := { id := 1, skuID := "5", name := "Europe", dataLimit := "10GB" }

def c7pp : PackagePrice :=
  { id := 1, skuID := "5", providerPriceID := 77, apiCode := "A", showName := "P",
    flows := 10, unit := "GB", days := 30, rawProviderPrice := 10,
    markupPercent := none, overridePriceUSD := none, effectivePriceUSD := 10,
    effectivePriceMNT := none, exchangeRate := none, priceSource := "base",
    active := true, lastSyncedAt := none }

def c7db0 : DB :=
  { products := [c7product], packagePrices := [c7pp], orders := [],
    paymentTransactions := [], currencyRates := [mkRateRow 3450 "manual" 0] }

def c7db1 : DB := (setPackageMarkup none 10 77 20 c7db0).2

def c7req : CreateOrderRequest :=
  { productID := 1, packagePriceID := none, providerPriceID := some 77,
    customerEmail := "user@example.com", customerPhone := "97600000000",
    userID := none, customPriceUSD := none }

def c7invoice : SentInvoice → Option QPayInvoiceData :=
  fun _ => some { invoiceID := "inv7", qrCode := "QR7", webURL := "w", appURL := "a" }

def c8product : Product := { id := 2, skuID := "9", name := "Asia", dataLimit := "5GB" }

def c8order : Order :=
  { id := 3, userID := none, productID := 2, packagePriceID := none,
    providerPriceID := some 777, orderNumber := "ESIM8", qpayInvoiceID := "inv8",
    status := "paid", amount := 100, currency := "MNT",
    customerEmail := "user@example.com", customerPhone := "97611111111",
    roamwifiOrderID := "", esimData := none }

def c9product : Product := { id := 1, skuID := "5", name := "Europe", dataLimit := "10GB" }

def c9order : Order :=
  { id := 1, userID := none, productID := 1, packagePriceID := none,
    providerPriceID := some 77, orderNumber := "ESIM9C", qpayInvoiceID := "inv9",
    status := "pending", amount := 41400, currency := "MNT",
    customerEmail := "user@example.com", customerPhone := "97600000000",
    roamwifiOrderID := "", esimData := none }

def c9db : DB :=
  { products := [c9product], packagePrices := [], orders := [c9order],
    paymentTransactions := [], currencyRates := [] }

def c9resp : RoamWiFiOrderResponse :=
  { orderID := "RW9", status := "0", esimData := [], qrCode := "QR9", activationCode := "AC9" }

def c9wh : QPayWebhookData :=
  { invoiceID := "inv9", senderInvoiceNo := "ESIM9C", transactionID := "tx9",
    paymentStatus := "PAID", amount := 41400, paidAmount := 41400,
    paymentDate := "2025-01-03" }

def c10order : Order :=
  { id := 1, userID := none, productID := 1, packagePriceID := none,
    providerPriceID := none, orderNumber := "ESIM10", qpayInvoiceID := "",
    status := "paid", amount := 1, currency := "MNT", customerEmail := "",
    customerPhone := "", roamwifiOrderID := "", esimData := none }

def c10db : DB :=
  { products := [], packagePrices := [], orders := [c10order],
    paymentTransactions := [], currencyRates := [] }

def c10wh : QPayWebhookData :=
  { invoiceID := "i", senderInvoiceNo := "ESIM10", transactionID := "t",
    paymentStatus := "SOMETHING_ELSE", amount := 1, paidAmount := 0,
    paymentDate := "d" }

/-! ## List lemmas for the signature refinement proof -/

theorem insertPair_map_fst (p : String × String) (l : List (String × String)) :
    (insertPair p l).map Prod.fst = insertStr p.1 (l.map Prod.fst) := by
  induction l with
  | nil => rfl
  | cons q qs ih =>
      simp only [insertPair, insertStr, List.map_cons]
      split
      · simp
      · simp [ih]

theorem sortPairs_map_fst (l : List (String × String)) :
    (sortPairs l).map Prod.fst = sortStrs (l.map Prod.fst) := by
  induction l with
  | nil => rfl
  | cons p ps ih => simp [sortPairs, sortStrs, insertPair_map_fst, ih]

theorem mem_insertPair {q p : String × String} {l : List (String × String)}
    (h : q ∈ insertPair p l) : q = p ∨ q ∈ l := by
  induction l with
  | nil =>
      simp only [insertPair, List.mem_singleton] at h
      exact Or.inl h
  | cons r rs ih =>
      simp only [insertPair] at h
      split at h
      · rcases List.mem_cons.mp h with h1 | h2
        · exact Or.inl h1
        · exact Or.inr h2
      · rcases List.mem_cons.mp h with h1 | h2
        · exact Or.inr (List.mem_cons.mpr (Or.inl h1))
        · rcases ih h2 with h3 | h4
          · exact Or.inl h3
          · exact Or.inr (List.mem_cons.mpr (Or.inr h4))

theorem mem_sortPairs {q : String × String} {l : List (String × String)}
    (h : q ∈ sortPairs l) : q ∈ l := by
  induction l with
  | nil => simp [sortPairs] at h
  | cons p ps ih =>
      simp only [sortPairs] at h
      rcases mem_insertPair h with h1 | h2
      · exact List.mem_cons.mpr (Or.inl h1)
      · exact List.mem_cons.mpr (Or.inr (ih h2))

theorem lookupStr_eq_of_mem {l : List (String × String)} {k v : String}
    (hn : (l.map Prod.fst).Nodup) (hm : (k, v) ∈ l) : lookupStr l k = v := by
  induction l with
  | nil => cases hm
  | cons p ps ih =>
      simp only [List.map_cons, List.nodup_cons] at hn
      rcases List.mem_cons.mp hm with h | h
      · simp [lookupStr, ← h]
      · have hk : k ∈ ps.map Prod.fst := List.mem_map.mpr ⟨(k, v), h, rfl⟩
        have hne : p.1 ≠ k := fun e => hn.1 (e ▸ hk)
        simp only [lookupStr, if_neg hne]
        exact ih hn.2 h

theorem generateSignature_eq_specSignature {params : List (String × String)}
    (h : (params.map Prod.fst).Nodup) :
    generateSignature params = specSignature params := by
  have hsub : List.Sublist ((params.filter (fun p => p.1 ≠ "sign")).map Prod.fst)
      (params.map Prod.fst) := (List.filter_sublist params).map Prod.fst
  have hnodup : ((params.filter (fun p => p.1 ≠ "sign")).map Prod.fst).Nodup :=
    h.sublist hsub
  simp only [generateSignature, specSignature]
  congr 2
  rw [← sortPairs_map_fst, List.map_map]
  refine congrArg String.join (List.map_congr_left (fun p hp => ?_))
  have hmem : p ∈ params.filter (fun q => q.1 ≠ "sign") := mem_sortPairs hp
  have hv : lookupStr (params.filter (fun q => q.1 ≠ "sign")) p.1 = p.2 :=
    lookupStr_eq_of_mem hnodup (by simpa using hmem)
  simp only [ne_eq, decide_not] at hv
  simp [Function.comp, hv]

/-! ## Claim C6 -/

/-- C6: for every parameter map with distinct keys, generateSignature
computes exactly the spec algorithm (drop "sign", sort keys
lexicographically, concatenate key=value with no separator, append the
fixed shared secret, MD5, hex-encode); a pre-existing "sign" entry is
always dropped; and on the golden parameter set
phonenumber=97688112233, password=test123 with the fixed secret the
result equals the precomputed reference hash. -/
theorem c6_signature_algorithm :
    (∀ params : List (String × String), (params.map Prod.fst).Nodup →
      generateSignature params = specSignature params) ∧
    (∀ (v : String) (params : List (String × String)),
      generateSignature (("sign", v) :: params) = generateSignature params) ∧
    generateSignature [("phonenumber", "97688112233"), ("password", "test123")] =
      "29ba90c7db3f683e632a5278dfebcada" := by
  refine ⟨fun params h => generateSignature_eq_specSignature h, fun v params => ?_, by decide⟩
  simp [generateSignature]

/-- C6 witness: the refinement clause applied to a concrete two-key map. -/
theorem c6_signature_algorithm_witness :
    ((([("phonenumber", "97688112233"), ("password", "test123")] :
        List (String × String)).map Prod.fst).Nodup) ∧
    generateSignature [("phonenumber", "97688112233"), ("password", "test123")] =
      specSignature [("phonenumber", "97688112233"), ("password", "test123")] :=
  ⟨by decide, c6_signature_algorithm.1 [("phonenumber", "97688112233"), ("password", "test123")]
    (by decide)⟩

/-! ## Claim C3 -/

/-- C3: effective-price precedence override > markup > base.
Clause 1: setting a markup (SetPackageMarkup record update) stores the
markup, clears the stored override, and recomputes effective USD as
raw * (1 + markup/100) with source "markup".
Clause 2: setting a positive override (SetPackageOverride record update)
makes the effective USD equal the override with source "override",
whatever markup is stored - the two are never combined.
Clause 3: the sync recompute resolves override (> 0, set) first, then
markup, then the raw provider price, tagging the source accordingly. -/
theorem c3_price_precedence :
    (∀ (pp : PackagePrice) (m rate : Rat),
      (markupRecompute m rate pp).overridePriceUSD = none ∧
      (markupRecompute m rate pp).markupPercent = some m ∧
      (markupRecompute m rate pp).effectivePriceUSD = pp.rawProviderPrice * (1 + m / 100) ∧
      (markupRecompute m rate pp).priceSource = "markup") ∧
    (∀ (pp pp2 : PackagePrice) (v rate : Rat), 0 < v →
      overrideRecompute (some v) rate pp = .ok pp2 →
      pp2.effectivePriceUSD = v ∧ pp2.priceSource = "override" ∧
      pp2.overridePriceUSD = some v) ∧
    (∀ (skuID : String) (pkg : SyncPkg) (rate : Rat) (now : Int) (ex : PackagePrice),
      (∀ v : Rat, ex.overridePriceUSD = some v → 0 < v →
        (syncExistingPackage skuID pkg rate now ex).effectivePriceUSD = v ∧
        (syncExistingPackage skuID pkg rate now ex).priceSource = "override") ∧
      (∀ m : Rat, ex.overridePriceUSD = none → ex.markupPercent = some m →
        (syncExistingPackage skuID pkg rate now ex).effectivePriceUSD
          = pkg.price * (1 + m / 100) ∧
        (syncExistingPackage skuID pkg rate now ex).priceSource = "markup") ∧
      (ex.overridePriceUSD = none → ex.markupPercent = none →
        (syncExistingPackage skuID pkg rate now ex).effectivePriceUSD = pkg.price ∧
        (syncExistingPackage skuID pkg rate now ex).priceSource = "base")) := by
  refine ⟨fun pp m rate => ?_, fun pp pp2 v rate hv hok => ?_, fun skuID pkg rate now ex => ?_⟩
  · simp [markupRecompute]
  · have hne : ¬ v ≤ 0 := not_le.mpr hv
    simp only [overrideRecompute, if_neg hne, Except.ok.injEq] at hok
    subst hok
    simp
  · refine ⟨fun v hov hvpos => ?_, fun m hov hm => ?_, fun hov hm => ?_⟩
    · simp only [syncExistingPackage, hov]
      split <;> simp
    · simp only [syncExistingPackage, hov, hm]
      split <;> simp
    · simp only [syncExistingPackage, hov, hm]
      split <;> simp

/-- C3 witness: the sync precedence clause applied to a concrete row
that stores both a markup (20) and an override (15): the override wins. -/
theorem c3_price_precedence_witness :
    c3pp.overridePriceUSD = some 15 ∧ (0 : Rat) < 15 ∧
    c3pp.markupPercent = some 20 ∧
    (syncExistingPackage "5" c3pkg 3450 100 c3pp).effectivePriceUSD = 15 ∧
    (syncExistingPackage "5" c3pkg 3450 100 c3pp).priceSource = "override" :=
  ⟨by decide, by decide, by decide,
   ((c3_price_precedence.2.2 "5" c3pkg 3450 100 c3pp).1 15 (by decide) (by decide)).1,
   ((c3_price_precedence.2.2 "5" c3pkg 3450 100 c3pp).1 15 (by decide) (by decide)).2⟩

/-! ## Claim C4 -/

/-- C4 counterexample: a stored rate row does exist (an admin manual row
with rate 0, reachable through SetManualExchangeRate which performs no
validation), the fetch fails, yet GetUSDToMNTRate returns the hardcoded
fallback 2850 instead of the stored rate - the branch guards on
rate.Rate > 0, not on row existence. -/
theorem c4_rate_fallback_counterexample :
    mostRecentRate (setManualExchangeRate 0 0 []) = some (mkRateRow 0 "manual" 0) ∧
    getUSDToMNTRate none 1000000 (setManualExchangeRate 0 0 []) =
      ((2850, none), setManualExchangeRate 0 0 []) ∧
    (mkRateRow 0 "manual" 0).rate ≠ 2850 := by
  refine ⟨by decide, by decide, by decide⟩

/-- C4 amended: GetUSDToMNTRate never returns an error; a stored rate
younger than 24 hours is returned as is; on a successful fetch (stale or
missing cache) the fresh rate is appended as a new api row and returned;
on fetch failure the most recent stored rate is returned provided it is
positive, and otherwise (no stored row, or stored rate not positive) the
hardcoded fallback 2850 is returned, still without error. -/
theorem c4_rate_fallback (fetch : Option Rat) (now : Int) (rates : List CurrencyRate) :
    ((getUSDToMNTRate fetch now rates).1.2 = none) ∧
    (∀ r, mostRecentRate rates = some r →
      (now - r.lastUpdated < 86400 →
        getUSDToMNTRate fetch now rates = ((r.rate, none), rates)) ∧
      (¬ now - r.lastUpdated < 86400 → fetch = none → 0 < r.rate →
        getUSDToMNTRate fetch now rates = ((r.rate, none), rates)) ∧
      (¬ now - r.lastUpdated < 86400 → fetch = none → ¬ 0 < r.rate →
        getUSDToMNTRate fetch now rates = ((2850, none), rates)) ∧
      (¬ now - r.lastUpdated < 86400 → ∀ nr, fetch = some nr →
        getUSDToMNTRate fetch now rates = ((nr, none), rates ++ [mkRateRow nr "api" now]))) ∧
    (mostRecentRate rates = none →
      (fetch = none → getUSDToMNTRate fetch now rates = ((2850, none), rates)) ∧
      (∀ nr, fetch = some nr →
        getUSDToMNTRate fetch now rates = ((nr, none), rates ++ [mkRateRow nr "api" now]))) := by
  refine ⟨?_, fun r hr => ?_, fun hr => ?_⟩
  · cases hmr : mostRecentRate rates with
    | none => cases fetch <;> simp [getUSDToMNTRate, hmr]
    | some r =>
        by_cases hf : now - r.lastUpdated < 86400
        · simp [getUSDToMNTRate, hmr, hf]
        · cases fetch with
          | none =>
              by_cases hp : r.rate > 0 <;> simp [getUSDToMNTRate, hmr, hf, hp]
          | some nr => simp [getUSDToMNTRate, hmr, hf]
  · refine ⟨fun hfresh => ?_, fun hstale hnone hpos => ?_, fun hstale hnone hneg => ?_,
      fun hstale nr hnr => ?_⟩
    · simp [getUSDToMNTRate, hr, hfresh]
    · simp [getUSDToMNTRate, hr, hstale, hnone, hpos]
    · simp [getUSDToMNTRate, hr, hstale, hnone, hneg]
    · simp [getUSDToMNTRate, hr, hstale, hnr]
  · refine ⟨fun hnone => ?_, fun nr hnr => ?_⟩
    · simp [getUSDToMNTRate, hr, hnone]
    · simp [getUSDToMNTRate, hr, hnr]

/-- C4 witness: the fetch-failure fallback applied to a stale positive
stored rate (3450, age well over 24 hours). -/
theorem c4_rate_fallback_witness :
    mostRecentRate [mkRateRow 3450 "manual" 0] = some (mkRateRow 3450 "manual" 0) ∧
    ¬ ((1000000 : Int) - (mkRateRow 3450 "manual" 0).lastUpdated < 86400) ∧
    (0 : Rat) < (mkRateRow 3450 "manual" 0).rate ∧
    getUSDToMNTRate none 1000000 [mkRateRow 3450 "manual" 0] =
      ((3450, none), [mkRateRow 3450 "manual" 0]) :=
  ⟨by decide, by decide, by decide,
   ((c4_rate_fallback none 1000000 [mkRateRow 3450 "manual" 0]).2.1
     (mkRateRow 3450 "manual" 0) (by decide)).2.1 (by decide) rfl (by decide)⟩

/-! ## Claim C1 -/

/-- C1: the code has no terminal-state guard. Delivering the same PAID
webhook payload twice against an order already in `completed` issues one
provisioning call per delivery (two calls in total, contradicting "at
most once across all deliveries"): ProcessPaymentWebhook rewrites the
status to "paid" and re-enters createESIMOrder on every delivery. -/
theorem c1_webhook_replay_reprovisions :
    orderStatus c1db "ESIM1C" = some "completed" ∧
    (processPaymentWebhook (fun _ => some c1resp) c1wh c1db).2.2 = 1 ∧
    orderStatus (processPaymentWebhook (fun _ => some c1resp) c1wh c1db).2.1 "ESIM1C"
      = some "completed" ∧
    (processPaymentWebhook (fun _ => some c1resp) c1wh
      (processPaymentWebhook (fun _ => some c1resp) c1wh c1db).2.1).2.2 = 1 := by
  refine ⟨by decide, by decide, by decide, by decide⟩

/-! ## Claim C2 -/

/-- C2: the status write in ProcessPaymentWebhook is unconditional, so a
later PENDING webhook moves an order in the terminal state `completed`
back to `pending` - the forward-only state machine is violated. -/
theorem c2_backward_status_write :
    orderStatus c2db "ESIM2C" = some "completed" ∧
    getPaymentStatus "PENDING" = "pending" ∧
    orderStatus (processPaymentWebhook (fun _ => none) c2wh c2db).2.1 "ESIM2C"
      = some "pending" := by
  refine ⟨by decide, by decide, by decide⟩

/-! ## Claim C9 -/

/-- C9: there is no database-level conditional update or lock: the
status write and the provisioning trigger are unconditional, so two
PAID webhook deliveries for the same order (here the serialized
interleaving of the claimed concurrent scenario) each issue a successful
provisioning call - two in total, not exactly one. -/
theorem c9_double_delivery_double_provisioning :
    orderStatus c9db "ESIM9C" = some "pending" ∧
    (processPaymentWebhook (fun _ => some c9resp) c9wh c9db).2.2 = 1 ∧
    orderStatus (processPaymentWebhook (fun _ => some c9resp) c9wh c9db).2.1 "ESIM9C"
      = some "completed" ∧
    (processPaymentWebhook (fun _ => some c9resp) c9wh
      (processPaymentWebhook (fun _ => some c9resp) c9wh c9db).2.1).2.2 = 1 := by
  refine ⟨by decide, by decide, by decide, by decide⟩

/-! ## Claim C7 -/

/-- C7: FormatAmount truncates toward zero (floor for non-negative
amounts, negated floor of the negation otherwise, hence never rounds
up), and the invoice-creation path applies it to the order amount; the
concrete scenario raw 10 USD + markup 20% + rate 3450 creates the order
with amount 41400 and currency "MNT" and submits invoice amount 41400. -/
theorem c7_amount_truncation_scenario :
    (∀ q : Rat, 0 ≤ q → formatAmount q = (⌊q⌋ : Rat)) ∧
    (∀ q : Rat, q < 0 → formatAmount q = (-⌊-q⌋ : Rat)) ∧
    formatAmount (259 / 20 : Rat) = 12 ∧
    (c7db1.packagePrices.map (·.effectivePriceUSD)) = [12] ∧
    (createOrder none 10 "ESIM7" c7invoice c7req c7db1).2.2 =
      some { senderInvoiceNo := "ESIM7", description := "eSIM Europe - 10GB (P)",
             invoiceReceiver := "user@example.com", amount := 41400 } ∧
    ((createOrder none 10 "ESIM7" c7invoice c7req c7db1).2.1.orders.map
      (fun o => (o.amount, o.currency))) = [(41400, "MNT")] := by
  refine ⟨fun q hq => ?_, fun q hq => ?_, ?_, ?_, ?_, ?_⟩
  · simp [formatAmount, ratTrunc, hq]
  · simp [formatAmount, ratTrunc, not_le.mpr hq]
  · norm_num [formatAmount, ratTrunc]
  · norm_num [c7db1, setPackageMarkup, c7db0, c7pp, c7product, mkRateRow, getUSDToMNTRate,
      mostRecentRate, markupRecompute, savePackagePrice, freshID]
  · norm_num [createOrder, selectPackage, c7db1, setPackageMarkup, c7db0, c7pp, c7product,
      mkRateRow, getUSDToMNTRate, mostRecentRate, markupRecompute, savePackagePrice,
      freshID, c7req, c7invoice, formatAmount, ratTrunc, updateOrderStatus]
    decide
  · norm_num [createOrder, selectPackage, c7db1, setPackageMarkup, c7db0, c7pp, c7product,
      mkRateRow, getUSDToMNTRate, mostRecentRate, markupRecompute, savePackagePrice,
      freshID, c7req, c7invoice, formatAmount, ratTrunc, updateOrderStatus]

/-- C7 witness: the truncation clause applied at 12.95, which drops to
12 (rounding would give 13). -/
theorem c7_amount_truncation_scenario_witness :
    (0 : Rat) ≤ 259 / 20 ∧ formatAmount (259 / 20 : Rat) = ((⌊(259 / 20 : Rat)⌋ : Int) : Rat) :=
  ⟨by norm_num, c7_amount_truncation_scenario.1 (259 / 20) (by norm_num)⟩

/-! ## Claim C8 -/

/-- C8 counterexample: for a concrete paid order with a provider price
id, contact email and phone, the signed parameter set of the outbound
RoamWiFi createOrder call contains exactly token, skuid, quantity and
sign - the selected package id ("777"), the email and the phone appear
in the built request struct but in no transmitted parameter. -/
theorem c8_wire_params_counterexample :
    (roamWiFiCreateOrderSignedParams "tok" (buildProvisioningRequest c8product c8order)).map
      Prod.fst = ["token", "skuid", "quantity", "sign"] ∧
    (buildProvisioningRequest c8product c8order).packageID = "777" ∧
    (buildProvisioningRequest c8product c8order).customerEmail = "user@example.com" ∧
    (buildProvisioningRequest c8product c8order).customerPhone = "97611111111" ∧
    (roamWiFiCreateOrderSignedParams "tok" (buildProvisioningRequest c8product c8order)).find?
      (fun p => p.2 == "777") = none ∧
    (roamWiFiCreateOrderSignedParams "tok" (buildProvisioningRequest c8product c8order)).find?
      (fun p => p.2 == "user@example.com") = none ∧
    (roamWiFiCreateOrderSignedParams "tok" (buildProvisioningRequest c8product c8order)).find?
      (fun p => p.2 == "97611111111") = none := by
  refine ⟨by decide, by decide, by decide, by decide, by decide, by decide, by decide⟩

/-- C8 amended: createESIMOrder builds the provisioning request from the
order's selection and contacts (SKU id, package id resolved from the
provider price id, email, phone, quantity 1), but the adapter transmits
only token, skuid and quantity, plus the signature over exactly those
three parameters. -/
theorem c8_wire_params :
    (∀ (product : Product) (order : Order),
      buildProvisioningRequest product order =
        { skuID := product.skuID,
          packageID := match order.providerPriceID with
            | some p => toString p
            | none => product.skuID,
          customerEmail := order.customerEmail,
          customerPhone := order.customerPhone,
          quantity := 1 }) ∧
    (∀ (token : String) (req : OrderRequest),
      (roamWiFiCreateOrderParams token req).map Prod.fst = ["token", "skuid", "quantity"] ∧
      lookupStr (roamWiFiCreateOrderParams token req) "token" = token ∧
      lookupStr (roamWiFiCreateOrderParams token req) "skuid" = req.skuID ∧
      lookupStr (roamWiFiCreateOrderParams token req) "quantity" = toString req.quantity) ∧
    (∀ (token : String) (req : OrderRequest),
      roamWiFiCreateOrderSignedParams token req =
        roamWiFiCreateOrderParams token req ++
          [("sign", generateSignature (roamWiFiCreateOrderParams token req))]) := by
  refine ⟨fun product order => rfl, fun token req => ?_, fun token req => rfl⟩
  refine ⟨rfl, ?_, ?_, ?_⟩ <;> simp [roamWiFiCreateOrderParams, lookupStr]

/-! ## Claim C10 -/

/-- C10: any provider payment status outside PAID, PENDING, FAILED,
CANCELLED maps to the literal "unknown", and ProcessPaymentWebhook
writes that value straight into the order's status field, leaving the
persisted status outside the declared six-state set. -/
theorem c10_unknown_status_written :
    (∀ s : String, s ≠ "PAID" → s ≠ "PENDING" → s ≠ "FAILED" → s ≠ "CANCELLED" →
      getPaymentStatus s = "unknown") ∧
    getPaymentStatus "SOMETHING_ELSE" = "unknown" ∧
    orderStatus (processPaymentWebhook (fun _ => none) c10wh c10db).2.1 "ESIM10"
      = some "unknown" ∧
    "unknown" ∉ (["pending", "paid", "processing", "completed", "failed", "cancelled"] :
      List String) := by
  refine ⟨fun s h1 h2 h3 h4 => ?_, by decide, by decide, by decide⟩
  simp [getPaymentStatus, h1, h2, h3, h4]

/-- C10 witness: the mapping clause applied at the concrete status
string "SOMETHING_ELSE". -/
theorem c10_unknown_status_written_witness :
    ("SOMETHING_ELSE" ≠ "PAID" ∧ "SOMETHING_ELSE" ≠ "PENDING" ∧
     "SOMETHING_ELSE" ≠ "FAILED" ∧ "SOMETHING_ELSE" ≠ "CANCELLED") ∧
    getPaymentStatus "SOMETHING_ELSE" = "unknown" :=
  ⟨⟨by decide, by decide, by decide, by decide⟩,
   c10_unknown_status_written.1 "SOMETHING_ELSE" (by decide) (by decide) (by decide) (by decide)⟩

/-! ## Frame lemmas: no operation rewrites an order's money snapshot -/

theorem moneyView_map (f : Order → Order)
    (h : ∀ o : Order, (f o).id = o.id ∧ (f o).amount = o.amount ∧ (f o).currency = o.currency)
    (l : List Order) : moneyView (l.map f) = moneyView l := by
  simp only [moneyView, List.map_map]
  refine List.map_congr_left (fun o _ => ?_)
  obtain ⟨h1, h2, h3⟩ := h o
  simp [Function.comp, h1, h2, h3]

theorem moneyView_updateOrderStatus (i : Nat) (s : String) (l : List Order) :
    moneyView (updateOrderStatus i s l) = moneyView l := by
  simp only [updateOrderStatus]
  exact moneyView_map _ (fun o => by split <;> simp) l

theorem moneyView_append (a b : List Order) :
    moneyView (a ++ b) = moneyView a ++ moneyView b := by
  simp [moneyView]

theorem createESIMOrder_moneyView (prov : OrderRequest → Option RoamWiFiOrderResponse)
    (order : Order) (db : DB) :
    moneyView ((createESIMOrder prov order db).2.1.orders) = moneyView db.orders := by
  simp only [createESIMOrder]
  split
  · rfl
  · split
    · rfl
    · split
      · exact moneyView_updateOrderStatus _ _ _
      · exact moneyView_map _ (fun o => by split <;> simp) _

theorem processPaymentWebhook_moneyView (prov : OrderRequest → Option RoamWiFiOrderResponse)
    (wh : QPayWebhookData) (db : DB) :
    moneyView ((processPaymentWebhook prov wh db).2.1.orders) = moneyView db.orders := by
  simp only [processPaymentWebhook]
  split
  · rfl
  · split
    · split <;>
        simp [createESIMOrder_moneyView, moneyView_updateOrderStatus]
    · split <;>
        simp [createESIMOrder_moneyView, moneyView_updateOrderStatus]

theorem setPackageMarkup_orders (fetch : Option Rat) (now : Int) (pid : Int) (m : Rat)
    (db : DB) : (setPackageMarkup fetch now pid m db).2.orders = db.orders := by
  simp only [setPackageMarkup]
  split <;> rfl

theorem setPackageOverride_orders (fetch : Option Rat) (now : Int) (pid : Int)
    (ov : Option Rat) (db : DB) :
    (setPackageOverride fetch now pid ov db).2.orders = db.orders := by
  simp only [setPackageOverride]
  split
  · rfl
  · split <;> rfl

theorem syncStep_orders (skuID : String) (rate : Rat) (now : Int) (d : DB) (pkg : SyncPkg) :
    (syncStep skuID rate now d pkg).orders = d.orders := by
  simp only [syncStep]
  split <;> rfl

theorem foldl_syncStep_orders (skuID : String) (rate : Rat) (now : Int)
    (detailed : List SyncPkg) (d : DB) :
    (detailed.foldl (syncStep skuID rate now) d).orders = d.orders := by
  induction detailed generalizing d with
  | nil => rfl
  | cons p ps ih => rw [List.foldl_cons, ih, syncStep_orders]

theorem syncPackagePrices_orders (fetch : Option Rat) (now : Int) (skuID : String)
    (detailed : List SyncPkg) (db : DB) :
    (syncPackagePrices fetch now skuID detailed db).orders = db.orders := by
  simp only [syncPackagePrices]
  rw [foldl_syncStep_orders]

theorem initiatePayment_moneyView (check : Option String)
    (invoice : SentInvoice → Option QPayInvoiceData) (orderNumber : String) (db : DB) :
    moneyView ((initiatePayment check invoice orderNumber db).2.1.orders)
      = moneyView db.orders := by
  simp only [initiatePayment]
  split
  · rfl
  · split
    · rfl
    · split
      · exact moneyView_updateOrderStatus _ _ _
      · split
        · rfl
        · split <;> exact moneyView_map _ (fun o => by split <;> simp) _

theorem createOrder_moneyView (fetch : Option Rat) (now : Int) (orderNumber : String)
    (invoice : SentInvoice → Option QPayInvoiceData) (req : CreateOrderRequest) (db : DB) :
    ∃ t, moneyView ((createOrder fetch now orderNumber invoice req db).2.1.orders)
      = moneyView db.orders ++ t := by
  simp only [createOrder]
  split
  · exact ⟨[], by simp⟩
  · split
    · exact ⟨[], by simp⟩
    · split
      · exact ⟨[], by simp⟩
      · split
        · rw [moneyView_updateOrderStatus, moneyView_append]
          exact ⟨_, rfl⟩
        · rw [moneyView_map _ (fun o => by split <;> simp), moneyView_append]
          exact ⟨_, rfl⟩

/-! ## Claim C5 -/

/-- C5: an order's money snapshot (id, amount, currency) is frozen at
creation. Webhook processing (incl. provisioning), payment initiation,
markup/override changes and provider sync leave amount and currency of
every existing order unchanged (the pricing operations do not touch the
orders table at all, CreateOrder only appends), and InitiatePayment
submits formatAmount of the stored order amount - it never recomputes a
price. -/
theorem c5_amount_currency_immutable :
    (∀ (prov : OrderRequest → Option RoamWiFiOrderResponse) (wh : QPayWebhookData) (db : DB),
      moneyView ((processPaymentWebhook prov wh db).2.1.orders) = moneyView db.orders) ∧
    (∀ (fetch : Option Rat) (now : Int) (pid : Int) (m : Rat) (db : DB),
      (setPackageMarkup fetch now pid m db).2.orders = db.orders) ∧
    (∀ (fetch : Option Rat) (now : Int) (pid : Int) (ov : Option Rat) (db : DB),
      (setPackageOverride fetch now pid ov db).2.orders = db.orders) ∧
    (∀ (fetch : Option Rat) (now : Int) (skuID : String) (detailed : List SyncPkg) (db : DB),
      (syncPackagePrices fetch now skuID detailed db).orders = db.orders) ∧
    (∀ (check : Option String) (invoice : SentInvoice → Option QPayInvoiceData)
      (orderNumber : String) (db : DB),
      moneyView ((initiatePayment check invoice orderNumber db).2.1.orders)
        = moneyView db.orders) ∧
    (∀ (fetch : Option Rat) (now : Int) (orderNumber : String)
      (invoice : SentInvoice → Option QPayInvoiceData) (req : CreateOrderRequest) (db : DB),
      ∃ t, moneyView ((createOrder fetch now orderNumber invoice req db).2.1.orders)
        = moneyView db.orders ++ t) ∧
    (∀ (check : Option String) (invoice : SentInvoice → Option QPayInvoiceData)
      (orderNumber : String) (db : DB) (o : Order) (sent : SentInvoice),
      db.orders.find? (fun x => x.orderNumber == orderNumber) = some o →
      (initiatePayment check invoice orderNumber db).2.2 = some sent →
      sent.amount = formatAmount o.amount) := by
  refine ⟨processPaymentWebhook_moneyView, setPackageMarkup_orders, setPackageOverride_orders,
    syncPackagePrices_orders, initiatePayment_moneyView, createOrder_moneyView,
    fun check invoice orderNumber db o sent hfind htrace => ?_⟩
  simp only [initiatePayment, hfind] at htrace
  split at htrace
  · simp at htrace
  · split at htrace
    · simp at htrace
    · split at htrace
      · simp at htrace
        subst htrace
        rfl
      · simp at htrace
        subst htrace
        rfl

/-- C5 witness: the InitiatePayment clause applied to a concrete pending
order with stored amount 100: the submitted invoice amount is the
formatAmount of the stored amount. -/
theorem c5_amount_currency_immutable_witness :
    c5db.orders.find? (fun x => x.orderNumber == "ESIM5") = some c5order ∧
    (initiatePayment none c5invoice "ESIM5" c5db).2.2 = some c5sent ∧
    c5sent.amount = formatAmount c5order.amount := by
  have h1 : c5db.orders.find? (fun x => x.orderNumber == "ESIM5") = some c5order := by decide
  have h2 : (initiatePayment none c5invoice "ESIM5" c5db).2.2 = some c5sent := by
    norm_num [initiatePayment, c5db, c5order, c5invoice, c5sent, formatAmount, ratTrunc]
    decide
  exact ⟨h1, h2,
    c5_amount_currency_immutable.2.2.2.2.2.2 none c5invoice "ESIM5" c5db c5order c5sent h1 h2⟩

end ESim
